import Mathlib

/-!
Verification of the tennis-hotel scraping pipeline.

This file gives a shallow embedding of the pure computational content of the
pipeline (field extraction from hotel markup fragments, pagination accounting,
checkpoint files, consolidation into the relational store, and geocoding
enrichment) and proves, or refutes, the behavioural claims made about it.

Strings are modelled as lists of characters.  The Python string primitives
used by the code (strip, replace, split, startswith, lower, rstrip, isdigit,
int and float conversion) are reproduced below as executable functions; the
float model covers the sign/digits/fraction forms exercised by the scraper and
rejects anything else, exactly as Python float() rejects texts with interior
letters or spaces.
-/

/-! Section 1: Python string primitives over lists of characters. -/

abbrev Str := List Char

/-- Characters stripped by Python str.strip() with no argument. -/
def pyIsSpace (c : Char) : Bool :=
  c = ' ' || c = '\t' || c = '\n' || c = '\r' || c = '\x0b' || c = '\x0c'

/-- Python s.strip(): drop whitespace from both ends. -/
def pyStrip (l : Str) : Str :=
  ((l.dropWhile pyIsSpace).reverse.dropWhile pyIsSpace).reverse

/-- Python s.strip(chars): drop any of the given characters from both ends. -/
def pyStripSet (cs : Str) (l : Str) : Str :=
  ((l.dropWhile cs.contains).reverse.dropWhile cs.contains).reverse

/-- Python s.rstrip(','): drop trailing commas. -/
def rstripComma (l : Str) : Str :=
  (l.reverse.dropWhile (fun c => c == ',')).reverse

/-- ASCII lower-casing of one character; characters outside the ASCII upper-case
range are left unchanged (sufficient for the label and value texts compared by
the extractor, whose match tokens are ASCII or already lower-case). -/
def pyLowerChar (c : Char) : Char :=
  if 'A' ≤ c ∧ c ≤ 'Z' then Char.ofNat (c.toNat + 32) else c

/-- Python s.lower() on the modelled character range. -/
def pyLower (l : Str) : Str := l.map pyLowerChar

/-- Numeric value of a digit string, as Python int() on a string of digits. -/
def digitsVal (l : Str) : Nat :=
  l.foldl (fun a c => 10 * a + (c.toNat - 48)) 0

/-- Python int(''.join(filter(str.isdigit, v))): the digits of v joined and
converted, or failure (ValueError) when v holds no digit at all. -/
def pyIntDigits (v : Str) : Option Nat :=
  let ds := v.filter Char.isDigit
  if ds.isEmpty then none else some (digitsVal ds)

/-- Worker for eraseOccs: a positive skip count consumes characters belonging to
an occurrence already matched; at skip 0 the next occurrence is searched. -/
def eraseAux (pat : Str) : Nat → Str → Str
  | _, [] => []
  | k + 1, _ :: cs => eraseAux pat k cs
  | 0, c :: cs =>
    if pat.isPrefixOf (c :: cs) ∧ pat ≠ [] then eraseAux pat (pat.length - 1) cs
    else c :: eraseAux pat 0 cs

/-- Python s.replace(pat, ""): delete every non-overlapping occurrence of pat,
scanning left to right. -/
def eraseOccs (pat s : Str) : Str := eraseAux pat 0 s

/-- Whether pat occurs in s as a contiguous substring (Python "pat in s"). -/
def occursIn (pat : Str) : Str → Bool
  | [] => pat.isEmpty
  | c :: cs => pat.isPrefixOf (c :: cs) || occursIn pat cs

/-- Python s.split(pat)[0] for a nonempty pat: the text before the first
occurrence of pat, or all of s when pat does not occur. -/
def takeBeforeOcc (pat : Str) : Str → Str
  | [] => []
  | c :: cs =>
    if pat.isPrefixOf (c :: cs) ∧ pat ≠ [] then []
    else c :: takeBeforeOcc pat cs

/-- Worker for splitOnStr, with the same skip-count discipline as eraseAux. -/
def splitAux (pat : Str) : Nat → Str → List Str
  | _, [] => [[]]
  | k + 1, _ :: cs => splitAux pat k cs
  | 0, c :: cs =>
    if pat.isPrefixOf (c :: cs) ∧ pat ≠ [] then [] :: splitAux pat (pat.length - 1) cs
    else
      match splitAux pat 0 cs with
      | [] => [[c]]
      | t :: ts => (c :: t) :: ts

/-- Python s.split(pat) for a nonempty pat: the parts of s between the
non-overlapping occurrences of pat. -/
def splitOnStr (pat s : Str) : List Str := splitAux pat 0 s

/-- Python s.split(sep) for a single separator character. -/
def splitOnChar (sep : Char) : Str → List Str
  | [] => [[]]
  | c :: cs =>
    if c = sep then [] :: splitOnChar sep cs
    else
      match splitOnChar sep cs with
      | [] => [[c]]
      | t :: ts => (c :: t) :: ts

/-- Magnitude part of the Python float() model: digits with an optional
fractional part, nothing else. -/
def pyFloatMag (r : Str) : Option ℚ :=
  let d1 := r.takeWhile Char.isDigit
  let r1 := r.dropWhile Char.isDigit
  match r1 with
  | [] => if d1.isEmpty then none else some (mkRat (Int.ofNat (digitsVal d1)) 1)
  | '.' :: r2 =>
    let d2 := r2.takeWhile Char.isDigit
    let r3 := r2.dropWhile Char.isDigit
    if r3.isEmpty then
      if d1.isEmpty ∧ d2.isEmpty then none
      else some (mkRat (Int.ofNat (digitsVal d1 * 10 ^ d2.length + digitsVal d2)) (10 ^ d2.length))
    else none
  | _ => none

/-- Model of Python float(s): surrounding whitespace is ignored, then an
optional sign followed by digits with an optional decimal point; any other text
(interior letters, spaces, thousands separators and so on) raises ValueError,
modelled as none. -/
def pyFloat (l : Str) : Option ℚ :=
  match pyStrip l with
  | [] => none
  | c :: r =>
    if c = '+' then pyFloatMag r
    else if c = '-' then (pyFloatMag r).map (fun q => -q)
    else pyFloatMag (c :: r)

/-! Section 2: the field extractor (hotel_scraper.py, extract_hotel_data,
lines 57-293).  A markup fragment is modelled by the answers the DOM layer
gives to the selector queries the extractor issues: each query_selector call
becomes an optional inner text, query_selector_all becomes a list. -/

/-- Nested price record of a HotelRecord (lines 71-77 defaults). -/
structure PriceInfo where
  amount : Option ℚ
  currency : Str
  provider : Str
  roomType : Str
  cancellationPolicy : Str
deriving DecidableEq

/-- Nested tennis-facilities record of a HotelRecord (lines 78-94 defaults).
The surface_counts dictionary becomes an insertion-ordered association list. -/
structure TennisFacilities where
  totalCourts : Nat
  lightedCourts : Nat
  courtSurfaces : List Str
  surfaceCounts : List (Str × Nat)
  openingHours : Str
  courtCost : Str
  lessonsAvailable : Bool
  lessonsCost : Str
  equipmentRental : Bool
  equipmentCost : Str
  requirements : List Str
  tennisCamps : Bool
  tournaments : Bool
  tennisShop : Bool
  additionalInfo : List Str
deriving DecidableEq

/-- The hotel record produced by the extractor (lines 63-96). -/
structure HotelRecord where
  name : Str
  location : Str
  country : Str
  sourceCountry : Str
  starRating : Nat
  ratingScore : Option ℚ
  ratingText : Str
  price : PriceInfo
  tennisFacilities : TennisFacilities
  scrapeTimestamp : Str
deriving DecidableEq

/-- Default price sub-record: amount absent, currency "USD". -/
def defaultPrice : PriceInfo :=
  { amount := none, currency := "USD".data, provider := [], roomType := [],
    cancellationPolicy := [] }

/-- Default tennis sub-record: all counters zero, flags false, texts empty. -/
def defaultTennis : TennisFacilities :=
  { totalCourts := 0, lightedCourts := 0, courtSurfaces := [], surfaceCounts := [],
    openingHours := [], courtCost := [], lessonsAvailable := false, lessonsCost := [],
    equipmentRental := false, equipmentCost := [], requirements := [],
    tennisCamps := false, tournaments := false, tennisShop := false,
    additionalInfo := [] }

/-- The country list as finally assigned in the constructor (lines 46-49); its
head is the source_country written into every record at initialization. -/
def europeanCountries : List Str := ["World".data, "Portugal".data]

/-- One label/value block of the tennis panel (div.tabs_content_font): the
inner texts of its span children, and of its div:has(svg) surface children. -/
structure TennisDiv where
  spans : List Str
  surfaceDivs : List Str
deriving DecidableEq

/-- The price box of a fragment (.main_price_box), as optional inner texts and
the optional src attribute of the provider logo image. -/
structure PriceBox where
  amountText : Option Str
  providerSrc : Option Str
  roomTypeText : Option Str
  cancellationText : Option Str
deriving DecidableEq

/-- A hotel markup fragment, as seen through the selector queries issued by
extract_hotel_data: optional name and location texts, the number of star
icons, optional rating texts, an optional price box and an optional tennis
panel. -/
structure Fragment where
  nameText : Option Str
  locationText : Option Str
  starCount : Nat
  ratingScoreText : Option Str
  ratingTextText : Option Str
  priceBox : Option PriceBox
  tennisSection : Option (List TennisDiv)
deriving DecidableEq

/-- The property-type markers removed from the raw location text (lines
113-123), in source order. -/
def prefixesToRemove : List Str :=
  ["Hotel in".data, "Resort in".data, "Guest House in".data,
   "Bed & Breakfast in".data, "Country House in".data, "Hostel in".data,
   "Apartment in".data, "Aparthotel in".data, "Villa in".data]

/-- The first matching property-type marker is deleted (the Python replace
removes every occurrence of it) and the text re-stripped; later markers are not
tried (lines 127-130). -/
def stripPropertyType : List Str → Str → Str
  | [], l => l
  | p :: ps, l => if p.isPrefixOf l then pyStrip (eraseOccs p l) else stripPropertyType ps l

/-- The suffix marker dropped from location texts (line 133). -/
def showOnMap : Str := "Show on Map".data

/-- Location/country split of extract_hotel_data (lines 106-149): strip, remove
a known property-type marker, cut at "Show on Map", split on newlines into
non-empty stripped parts; the first part without trailing commas is the
location and the second, when present, the country. -/
def parseLocationCountry (raw : Str) : Str × Str :=
  let t := pyStrip raw
  let l1 := stripPropertyType prefixesToRemove t
  let l2 := pyStrip (takeBeforeOcc showOnMap l1)
  let parts := ((splitOnChar '\n' l2).map pyStrip).filter (fun p => !p.isEmpty)
  match parts with
  | [] => ([], [])
  | a :: rest =>
    (rstripComma a, match rest with | [] => [] | b :: _ => b)

/-- Currency glyph and separator removal applied to the price text before float
conversion (line 174). -/
def cleanPrice (l : Str) : Str :=
  eraseOccs ",".data (eraseOccs "€".data (eraseOccs "$".data (eraseOccs "£".data l)))

/-- Amount and currency derived from the optional price text (lines 171-180):
on success the currency is forced to "GBP"; on a ValueError the amount is set
to None and the currency keeps its default "USD". -/
def parseAmount (o : Option Str) : Option ℚ × Str :=
  match o with
  | none => (none, "USD".data)
  | some raw =>
    match pyFloat (cleanPrice (pyStrip raw)) with
    | some v => (some v, "GBP".data)
    | none => (none, "USD".data)

/-- Price-box processing of extract_hotel_data (lines 164-187). -/
def parsePriceBox (pb : PriceBox) : PriceInfo :=
  let ac := parseAmount pb.amountText
  { amount := ac.1
    currency := ac.2
    provider :=
      match pb.providerSrc with
      | some src => eraseOccs ".png".data ((splitOnChar '/' src).getLastD [])
      | none => []
    roomType := match pb.roomTypeText with | some t => pyStrip t | none => []
    cancellationPolicy :=
      match pb.cancellationText with | some t => pyStrip t | none => [] }

/-- Dictionary assignment d[k] = v for an insertion-ordered association list. -/
def setAssoc (k : Str) (v : Nat) : List (Str × Nat) → List (Str × Nat)
  | [] => [(k, v)]
  | (k2, v2) :: rest => if k2 = k then (k, v) :: rest else (k2, v2) :: setAssoc k v rest

/-- Negative tokens searched for in the tennis-lessons value (lines 274-277). -/
def noTokens : List Str := ["no".data, "νο".data, "нет".data]

/-- Label tokens recognised as the total-courts field (line 230). -/
def totalCourtsTokens : List Str :=
  ["number of all tennis courts".data, "tennis courts total".data]

/-- Per-surface processing inside the terrain/surface branch (lines 248-262):
split the surface text on "Number of courts:"; exactly two parts are required;
a count whose digit extraction fails is skipped with a warning. -/
def processSurfaceDiv (tf : TennisFacilities) (sd : Str) : TennisFacilities :=
  let st := pyStrip sd
  match splitOnStr "Number of courts:".data st with
  | [a, b] =>
    let stype := pyStrip a
    match pyIntDigits b with
    | some n =>
      { tf with
        courtSurfaces :=
          if tf.courtSurfaces.contains stype then tf.courtSurfaces
          else tf.courtSurfaces ++ [stype]
        surfaceCounts := setAssoc stype n tf.surfaceCounts }
    | none => tf
  | _ => tf

/-- Processing of one label/value block of the tennis panel (lines 216-286):
the label is routed by case-insensitive substring matching, a failed digit
extraction leaves the field at its default, and a block with fewer than two
spans is skipped. -/
def processTennisDiv (tf : TennisFacilities) (d : TennisDiv) : TennisFacilities :=
  match d.spans with
  | s0 :: s1 :: _ =>
    let label := pyStrip s0
    let value := pyStrip s1
    let ll := pyLower label
    if totalCourtsTokens.any (fun tok => occursIn tok ll) then
      match pyIntDigits value with
      | some n => { tf with totalCourts := n }
      | none => tf
    else if occursIn "lighted".data ll && occursIn "court".data ll then
      match pyIntDigits value with
      | some n => { tf with lightedCourts := n }
      | none => tf
    else if occursIn "terrain".data ll || occursIn "surface".data ll then
      d.surfaceDivs.foldl processSurfaceDiv tf
    else if occursIn "opening hours".data ll then
      { tf with openingHours := value }
    else if occursIn "cost".data ll && occursIn "court".data ll then
      { tf with courtCost := value }
    else if occursIn "tennis lessons".data ll then
      let lv := pyLower value
      let avail := !(noTokens.any (fun tok => occursIn tok lv))
      let tf1 := { tf with lessonsAvailable := avail }
      if occursIn "charge".data lv || occursIn "cost".data lv then
        match splitOnChar ':' value with
        | _ :: c1 :: _ => { tf1 with lessonsCost := pyStrip c1 }
        | _ => tf1
      else tf1
    else tf
  | _ => tf

/-- The total part of extract_hotel_data, given the already converted rating
score: name, location/country, stars, rating text, price box and tennis panel
are all processed with per-field defaults.  The now argument stands for the
timestamp taken at record initialization. -/
def buildRecord (now : Str) (frag : Fragment) (rs : Option ℚ) : HotelRecord :=
  let nm := match frag.nameText with | some t => pyStrip t | none => ([] : Str)
  let lc := match frag.locationText with
    | some raw => parseLocationCountry raw
    | none => (([] : Str), ([] : Str))
  let rt := match frag.ratingTextText with | some t => pyStrip t | none => ([] : Str)
  let pr := match frag.priceBox with | some pb => parsePriceBox pb | none => defaultPrice
  let tf := match frag.tennisSection with
    | some ds => ds.foldl processTennisDiv defaultTennis
    | none => defaultTennis
  { name := nm, location := lc.1, country := lc.2,
    sourceCountry := europeanCountries.headD [], starRating := frag.starCount,
    ratingScore := rs, ratingText := rt, price := pr, tennisFacilities := tf,
    scrapeTimestamp := now }

/-- extract_hotel_data (lines 57-293).  Every field conversion is guarded by a
local handler except the rating-score float conversion at line 159: when that
text does not parse, the ValueError reaches the outer handler at line 291 and
the function returns None instead of a record. -/
def extractHotelData (now : Str) (frag : Fragment) : Option HotelRecord :=
  match frag.ratingScoreText with
  | none => some (buildRecord now frag none)
  | some s =>
    match pyFloat (pyStrip s) with
    | none => none
    | some q => some (buildRecord now frag (some q))

/-! Section 3: pagination (hotel_scraper.py, get_total_pages lines 295-314 and
the while-loop of scrape_hotels lines 363-463). -/

/-- The numeric title attributes of the pagination links: a link contributes
its value when its title is present, non-empty and all digits (lines 301-305).
A missing title attribute is none. -/
def pageTitleNumbers (titles : List (Option Str)) : List Nat :=
  titles.filterMap (fun t =>
    match t with
    | some s => if !s.isEmpty && s.all Char.isDigit then some (digitsVal s) else none
    | none => none)

/-- get_total_pages (lines 295-314): the maximum numeric page title, or 1 when
there is no pagination control or no numeric title. -/
def getTotalPages (titles : List (Option Str)) : Nat :=
  match pageTitleNumbers titles with
  | [] => 1
  | n :: ns => (n :: ns).foldl Nat.max 0

/-- Worker for visitedPages.  The fuel argument equals total - p on entry and
decreases by one per visited page, so fuel 0 is exactly the loop's
current_page greater-or-equal total_pages exit test. -/
def visitAux (load nav : Nat → Bool) : Nat → Nat → List Nat
  | p, 0 => [p]
  | p, f + 1 =>
    if !load p then [p]
    else if nav p then p :: visitAux load nav (p + 1) f
    else [p]

/-- The pages requested by the while-loop of scrape_hotels starting at page p
with total pages total: page p is always requested (page.goto precedes every
exit test); the walk then stops when the listing container fails to load
(load p false), when p has reached total, or when navigation to p+1 fails
(nav p false). -/
def visitedPages (load nav : Nat → Bool) (total p : Nat) : List Nat :=
  visitAux load nav p (total - p)

/-! Section 4: checkpoint files (hotel_scraper.py, save_checkpoint lines
347-361, and the per-page saves of scrape_all_countries lines 506-530).  The
file system is a name-to-content map; a write replaces the whole content. -/

/-- File system holding JSON arrays of records of some type. -/
def Files (α : Type) : Type := List (Str × List α)

/-- Full overwrite of one file. -/
def setFile {α : Type} (n : Str) (d : List α) (fs : Files α) : Files α :=
  (n, d) :: fs.filter (fun e => !(e.1 == n))

/-- Content of one file, none when it does not exist. -/
def getFile {α : Type} (n : Str) (fs : Files α) : Option (List α) :=
  (fs.find? (fun e => e.1 == n)).map (fun e => e.2)

/-- Decimal rendering of a page number, as Python str formatting. -/
def natStr (n : Nat) : Str := (Nat.repr n).data

/-- Page-numbered recovery file of save_checkpoint (line 351). -/
def checkpointFileName (p : Nat) : Str :=
  "tennis_hotels_checkpoint_page_".data ++ natStr p ++ ".json".data

/-- The single main file overwritten by save_checkpoint (line 357). -/
def mainFileName : Str := "tennis_hotels.json".data

/-- save_checkpoint (lines 347-361): writes the given data to the page file
and then to the main file; w1 and w2 tell whether the first or the second
write raises, in which case the exception is logged and the remaining writes
of this call are skipped, leaving the files as they were. -/
def saveCheckpoint {α : Type} (w1 w2 : Bool) (data : List α) (p : Nat) (fs : Files α) :
    Files α :=
  if w1 then fs
  else
    let fs1 := setFile (checkpointFileName p) data fs
    if w2 then fs1 else setFile mainFileName data fs1

/-- The page loop of scrape_hotels as it touches the accumulated record list
and the file system: after each page the accumulated list (not only the page)
is checkpointed under the page number.  w1 and w2 give the per-page write
failures. -/
def walkCheckpoints {α : Type} (w1 w2 : Nat → Bool) :
    Nat → List α → Files α → List (List α) → List α × Files α
  | _, acc, fs, [] => (acc, fs)
  | p, acc, fs, pg :: rest =>
    let acc2 := acc ++ pg
    let fs2 := saveCheckpoint (w1 p) (w2 p) acc2 p fs
    walkCheckpoints w1 w2 (p + 1) acc2 fs2 rest

/-- Per-country page checkpoint file of scrape_all_countries (line 524). -/
def countryCheckpointName (country : Str) (p : Nat) : Str :=
  "tennis_hotels_".data ++ pyLower country ++ "_checkpoint_page_".data ++
    natStr p ++ ".json".data

/-- Per-country output file of scrape_all_countries (line 530). -/
def countryFileName (country : Str) : Str :=
  "tennis_hotels_".data ++ pyLower country ++ ".json".data

/-- The page loop of scrape_all_countries (lines 506-530): each page writes
only that page's records to the page-numbered checkpoint file, and the
country's accumulated records are written once after the loop.  No main or
latest file is touched. -/
def sweepCountry {α : Type} (country : Str) :
    Nat → List α → Files α → List (List α) → List α × Files α
  | _, acc, fs, [] => (acc, setFile (countryFileName country) acc fs)
  | p, acc, fs, pg :: rest =>
    let fs2 := setFile (countryCheckpointName country p) pg fs
    sweepCountry country (p + 1) (acc ++ pg) fs2 rest

/-! Section 5: the consolidator (consolidate_data.py).  JSON records are
modelled with every field optional, mirroring dict.get with its defaults; a
missing name raises KeyError.  The SQLite statements become operations on an
explicit table state with AUTOINCREMENT counters; INSERT OR REPLACE on the
hotels table deletes any row with the same (name, location, scrape_timestamp)
key and appends a fresh row under a fresh id. -/

/-- JSON-level price object. -/
structure JPrice where
  amount : Option ℚ
  currency : Option Str
  provider : Option Str
  roomType : Option Str
  cancellationPolicy : Option Str
deriving DecidableEq

/-- JSON-level tennis-facilities object.  An absent surface_counts key behaves
exactly like an empty dictionary (the surface loop body never runs), so both
are modelled as the empty list. -/
structure JTennis where
  totalCourts : Option Nat
  lightedCourts : Option Nat
  openingHours : Option Str
  courtCost : Option Str
  lessonsAvailable : Option Bool
  lessonsCost : Option Str
  equipmentRental : Option Bool
  equipmentCost : Option Str
  tennisCamps : Option Bool
  tournaments : Option Bool
  tennisShop : Option Bool
  surfaceCounts : List (Str × Nat)
deriving DecidableEq

/-- JSON-level hotel record as read by the consolidator.  The price and tennis
sub-objects are none when absent or falsy (lines 138 and 153 test
truthiness). -/
structure JHotel where
  name : Option Str
  location : Option Str
  country : Option Str
  sourceCountry : Option Str
  starRating : Option Nat
  ratingScore : Option ℚ
  ratingText : Option Str
  pageNumber : Option Nat
  scrapeTimestamp : Option Str
  price : Option JPrice
  tennis : Option JTennis
deriving DecidableEq

/-- Row of the hotels table (schema lines 48-62). -/
structure HotelRow where
  id : Nat
  name : Str
  location : Str
  country : Str
  sourceCountry : Str
  starRating : Nat
  ratingScore : Option ℚ
  ratingText : Str
  pageNumber : Nat
  scrapeTimestamp : Str
deriving DecidableEq

/-- Row of the prices table (schema lines 65-76). -/
structure PriceRow where
  id : Nat
  hotelId : Nat
  amount : Option ℚ
  currency : Option Str
  provider : Option Str
  roomType : Option Str
  cancellationPolicy : Option Str
deriving DecidableEq

/-- Row of the tennis_facilities table (schema lines 79-96). -/
structure FacilityRow where
  id : Nat
  hotelId : Nat
  totalCourts : Nat
  lightedCourts : Nat
  openingHours : Str
  courtCost : Str
  lessonsAvailable : Bool
  lessonsCost : Str
  equipmentRental : Bool
  equipmentCost : Str
  tennisCamps : Bool
  tournaments : Bool
  tennisShop : Bool
deriving DecidableEq

/-- Row of the court_surfaces table (schema lines 99-107). -/
structure SurfaceRow where
  id : Nat
  facilityId : Nat
  surfaceType : Str
  courtCount : Nat
deriving DecidableEq

/-- The four tables of the consolidated store with their AUTOINCREMENT
counters. -/
structure ConsDB where
  hotels : List HotelRow
  hotelsSeq : Nat
  prices : List PriceRow
  pricesSeq : Nat
  facilities : List FacilityRow
  facilitiesSeq : Nat
  surfaces : List SurfaceRow
  surfacesSeq : Nat
deriving DecidableEq

/-- The freshly created empty store. -/
def emptyConsDB : ConsDB :=
  { hotels := [], hotelsSeq := 0, prices := [], pricesSeq := 0,
    facilities := [], facilitiesSeq := 0, surfaces := [], surfacesSeq := 0 }

/-- The UNIQUE(name, location, scrape_timestamp) key comparison. -/
def sameHotelKey (a : HotelRow) (nm loc ts : Str) : Bool :=
  a.name == nm && a.location == loc && a.scrapeTimestamp == ts

/-- The hotels row built from a JSON record (insert lines 118-133), with the
dict.get defaults of the source. -/
def hotelRowOf (now : Str) (nm : Str) (h : JHotel) (newId : Nat) : HotelRow :=
  { id := newId, name := nm, location := h.location.getD [],
    country := h.country.getD [], sourceCountry := h.sourceCountry.getD [],
    starRating := h.starRating.getD 0, ratingScore := h.ratingScore,
    ratingText := h.ratingText.getD [], pageNumber := h.pageNumber.getD 0,
    scrapeTimestamp := h.scrapeTimestamp.getD now }

/-- Court-surface child inserts (lines 179-184); k numbers the statements of
the enclosing call for the error oracle, fid is the facility row id. -/
def insertSurfaceRows (err : Nat → Bool) (fid : Nat) :
    Nat → ConsDB → List (Str × Nat) → Option ConsDB
  | _, db, [] => some db
  | k, db, (s, c) :: rest =>
    if err k then none
    else insertSurfaceRows err fid (k + 1)
      { db with
        surfaces := db.surfaces ++ [⟨db.surfacesSeq + 1, fid, s, c⟩],
        surfacesSeq := db.surfacesSeq + 1 } rest

/-- The price child insert of insert_hotel_data (lines 137-150): skipped when
the record has no truthy price object, fails when statement 1 raises. -/
def insertPriceStep (err : Nat → Bool) (hid : Nat) (h : JHotel) (db1 : ConsDB) :
    Option ConsDB :=
  match h.price with
  | none => some db1
  | some p =>
    if err 1 then none
    else some
      { db1 with
        prices := db1.prices ++
          [⟨db1.pricesSeq + 1, hid, p.amount, p.currency, p.provider,
            p.roomType, p.cancellationPolicy⟩],
        pricesSeq := db1.pricesSeq + 1 }

/-- The tennis-facilities and court-surface child inserts of insert_hotel_data
(lines 152-184): skipped when the record has no truthy tennis object, fails
when statement 2 or one of the surface statements raises. -/
def insertTennisStep (err : Nat → Bool) (hid : Nat) (h : JHotel) (db2 : ConsDB) :
    Option ConsDB :=
  match h.tennis with
  | none => some db2
  | some t =>
    if err 2 then none
    else
      insertSurfaceRows err (db2.facilitiesSeq + 1) 3
        { db2 with
          facilities := db2.facilities ++
            [⟨db2.facilitiesSeq + 1, hid, t.totalCourts.getD 0,
              t.lightedCourts.getD 0, t.openingHours.getD [],
              t.courtCost.getD [], t.lessonsAvailable.getD false,
              t.lessonsCost.getD [], t.equipmentRental.getD false,
              t.equipmentCost.getD [], t.tennisCamps.getD false,
              t.tournaments.getD false, t.tennisShop.getD false⟩],
          facilitiesSeq := db2.facilitiesSeq + 1 } t.surfaceCounts

/-- insert_hotel_data (lines 111-192).  err k tells whether the k-th SQL
statement of this call raises (0 the hotel insert, 1 the price insert, 2 the
facilities insert, 3 and up the surface inserts).  A record without the name
key raises KeyError while the first statement's arguments are built; the
except handler at line 190 then evaluates hotel_data['name'] again inside its
log f-string, so that KeyError is re-raised from the handler itself and
escapes the function — modelled as none.  For a record with a name, any raising
statement is caught, the transaction is rolled back to the incoming state and
False is returned; otherwise the transaction commits and True is returned. -/
def insertHotelData (err : Nat → Bool) (now : Str) (db : ConsDB) (h : JHotel) :
    Option (ConsDB × Bool) :=
  match h.name with
  | none => none
  | some nm =>
    if err 0 then some (db, false)
    else
      match insertPriceStep err (db.hotelsSeq + 1) h
          { db with
            hotels := db.hotels.filter (fun a =>
              !(sameHotelKey a nm (h.location.getD []) (h.scrapeTimestamp.getD now))) ++
              [hotelRowOf now nm h (db.hotelsSeq + 1)],
            hotelsSeq := db.hotelsSeq + 1 } with
      | none => some (db, false)
      | some db2 =>
        match insertTennisStep err (db.hotelsSeq + 1) h db2 with
        | none => some (db, false)
        | some dbf => some (dbf, true)

/-- Worker for processJsonFile: record i of the file uses error oracle err i,
and each successful insert adds one to the returned count.  An exception
escaping insert_hotel_data is caught by the file-level handler of
process_json_file, which returns 0: the remaining records of the file are not
processed and the count of the earlier successes is discarded, while their
already committed rows remain in the store. -/
def processRecords (err : Nat → Nat → Bool) (now : Str) :
    Nat → ConsDB → List JHotel → ConsDB × Nat
  | _, db, [] => (db, 0)
  | i, db, h :: rest =>
    match insertHotelData (err i) now db h with
    | none => (db, 0)
    | some r =>
      let rec2 := processRecords err now (i + 1) r.1 rest
      (rec2.1, rec2.2 + (if r.2 then 1 else 0))

/-- process_json_file (lines 194-210) after the JSON parse: records are
inserted in order; an insert returning False is logged and skipped; an insert
raising (a record without the name key) aborts the file and the function
returns 0. -/
def processJsonFile (err : Nat → Nat → Bool) (now : Str) (db : ConsDB)
    (hotels : List JHotel) : ConsDB × Nat :=
  processRecords err now 0 db hotels

/-! Section 6: the geocoder (add_geocoding.py).  The Nominatim endpoint is an
external collaborator modelled as a function from the query string to the
optional first result; none covers a network failure, a non-2xx status and an
empty result list alike, since all three leave the cache untouched.  The cache
is the in-memory dictionary; its persistence to disk carries the same data. -/

/-- The fields extracted from the first Nominatim result (lines 97-102). -/
structure GeoData where
  lat : ℚ
  lon : ℚ
  countryCode : Str
  formattedAddress : Str
deriving DecidableEq

/-- The in-memory geocode cache keyed by "location, country" strings. -/
structure GeoCache where
  cache : List (Str × GeoData)
deriving DecidableEq

/-- Dictionary lookup in the cache (newest binding first). -/
def lookupCache (k : Str) : List (Str × GeoData) → Option GeoData
  | [] => none
  | (k2, v) :: rest => if k2 = k then some v else lookupCache k rest

/-- Python f-string rendering of a value that may be None (a NULL country read
from the database renders as the text "None"). -/
def pyFStr (o : Option Str) : Str :=
  match o with
  | none => "None".data
  | some s => s

/-- The cache key of geocode_location (line 69): the formatted pair stripped of
commas and spaces at both ends. -/
def cacheKeyOf (loc : Str) (country : Option Str) : Str :=
  pyStripSet [',', ' '] (loc ++ ", ".data ++ pyFStr country)

/-- The search query of geocode_location (lines 74-76): the pair when the
country is truthy (present and non-empty), else the location alone. -/
def searchQueryOf (loc : Str) (country : Option Str) : Str :=
  match country with
  | some c => if c.isEmpty then loc else loc ++ ", ".data ++ c
  | none => loc

/-- geocode_location (lines 60-116): an empty location resolves to none with no
request; a cache hit answers from the cache with no request; otherwise one
request is made and a successful result is stored into the cache before being
returned, while a failed request returns none and stores nothing.  The third
component counts the network requests made by the call. -/
def geocodeLocation (net : Str → Option GeoData) (st : GeoCache) (loc : Str)
    (country : Option Str) : Option GeoData × GeoCache × Nat :=
  if loc.isEmpty then (none, st, 0)
  else
    let key := cacheKeyOf loc country
    match lookupCache key st.cache with
    | some v => (some v, st, 0)
    | none =>
      match net (searchQueryOf loc country) with
      | some g => (some g, ⟨(key, g) :: st.cache⟩, 1)
      | none => (none, st, 1)

/-- A hotels-table row as read and written by the geocoding stage: only the
location and country columns are touched by add_geocoding.py, the remaining
columns are neither read nor written there. -/
structure GHotelRow where
  id : Nat
  location : Option Str
  country : Option Str
deriving DecidableEq

/-- Row of the geocoding table (schema lines 27-37), location_string UNIQUE. -/
structure GeoRow where
  locationString : Str
  latitude : ℚ
  longitude : ℚ
  countryCode : Str
  formattedAddress : Str
deriving DecidableEq

/-- The database as seen by the geocoding stage. -/
structure GeoDB where
  hotels : List GHotelRow
  geocoding : List GeoRow
deriving DecidableEq

/-- The SQL test country IS NULL OR country = ''. -/
def countryMissing (c : Option Str) : Bool :=
  match c with
  | none => true
  | some s => s.isEmpty

/-- Country name derived from a formatted address: the last ", "-separated
segment (lines 153 and 211). -/
def lastSegment (fa : Str) : Str := (splitOnStr ", ".data fa).getLastD []

/-- First-occurrence deduplication, as SELECT DISTINCT over the scan order. -/
def dedupPairs (l : List (Str × Option Str)) : List (Str × Option Str) :=
  l.foldl (fun acc x => if acc.contains x then acc else acc ++ [x]) []

/-- update_database_geocoding (lines 118-165): the locations of hotels with a
non-NULL location and no geocoding row are fetched (distinct location/country
pairs), each is geocoded, and on success the geocoding row is upserted and the
country is filled on hotels at that location whose country is NULL or empty.
Returns the updated database, the updated cache and the number of network
requests. -/
def updateDatabaseGeocoding (net : Str → Option GeoData) (st : GeoCache)
    (db : GeoDB) : GeoDB × GeoCache × Nat :=
  let todo := dedupPairs (db.hotels.filterMap (fun h =>
    match h.location with
    | none => none
    | some l =>
      if db.geocoding.any (fun g => g.locationString == l) then none
      else some (l, h.country)))
  todo.foldl (fun acc lc =>
    let res := geocodeLocation net acc.2.1 lc.1 lc.2
    match res.1 with
    | none => (acc.1, res.2.1, acc.2.2 + res.2.2)
    | some g =>
      let d1 : GeoDB :=
        { acc.1 with
          geocoding := (acc.1.geocoding.filter (fun r => !(r.locationString == lc.1))) ++
            [⟨lc.1, g.lat, g.lon, g.countryCode, g.formattedAddress⟩] }
      let cn := lastSegment g.formattedAddress
      let d2 : GeoDB :=
        { d1 with
          hotels := d1.hotels.map (fun h =>
            if h.location == some lc.1 && countryMissing h.country then
              { h with country := some cn }
            else h) }
      (d2, res.2.1, acc.2.2 + res.2.2)) (db, st, 0)

/-- update_missing_countries (lines 192-223): hotels whose country is NULL or
empty are joined with their geocoding row, and for each fetched (location,
formatted address) pair the hotels table is updated with
UPDATE hotels SET country = ? WHERE location = ? — the update itself carries no
missing-country condition, so it touches every hotel at that location. -/
def updateMissingCountries (db : GeoDB) : GeoDB :=
  let todo := db.hotels.filterMap (fun h =>
    match h.location with
    | none => none
    | some l =>
      if countryMissing h.country then
        (db.geocoding.find? (fun g => g.locationString == l)).map
          (fun g => (l, g.formattedAddress))
      else none)
  todo.foldl (fun d lf =>
    let cn := lastSegment lf.2
    { d with
      hotels := d.hotels.map (fun h =>
        if h.location == some lf.1 then { h with country := some cn } else h) }) db

/-! Section 7: consolidator start-up (consolidate_data.py, delete_database
lines 15-26 and initialize_database lines 33-40).  The single database file
holds every table that was ever created in it; the geocoder's table lives in
the same file, so it is part of this state. -/

/-- The tables present in the tennis_hotels.db file; a table that was never
created is none. -/
structure DBFile where
  hotelsTab : Option (List HotelRow)
  pricesTab : Option (List PriceRow)
  facilitiesTab : Option (List FacilityRow)
  surfacesTab : Option (List SurfaceRow)
  geocodingTab : Option (List GeoRow)
deriving DecidableEq

/-- A database file with no tables, as freshly created by connecting. -/
def emptyDBFile : DBFile :=
  { hotelsTab := none, pricesTab := none, facilitiesTab := none,
    surfacesTab := none, geocodingTab := none }

/-- delete_database (lines 15-26): the file is removed when it exists. -/
def deleteDatabase (_fs : Option DBFile) : Option DBFile := none

/-- CREATE TABLE IF NOT EXISTS: an absent table becomes empty, rows of an
existing table are kept. -/
def createIfNotExists {β : Type} (t : Option (List β)) : Option (List β) :=
  match t with
  | none => some []
  | some rows => some rows

/-- setup_database (lines 42-109): connecting creates the file when absent,
then the four consolidator tables are created if missing; the geocoding table
is not touched by this schema. -/
def setupDatabase (fs : Option DBFile) : Option DBFile :=
  let f := fs.getD emptyDBFile
  some
    { f with
      hotelsTab := createIfNotExists f.hotelsTab,
      pricesTab := createIfNotExists f.pricesTab,
      facilitiesTab := createIfNotExists f.facilitiesTab,
      surfacesTab := createIfNotExists f.surfacesTab }

/-- initialize_database (lines 33-40): delete the file, then create the
schema anew. -/
def initializeDatabase (fs : Option DBFile) : Option DBFile :=
  setupDatabase (deleteDatabase fs)

/-- Default database file name of the consolidator (line 29). -/
def consolidatorDbName : Str := "tennis_hotels.db".data

/-- Default database path of the geocoding updater (line 17 of
add_geocoding.py). -/
def geocoderDbPath : Str := "tennis_hotels.db".data


/-- Guard of the only unguarded conversion of the extractor: the rating-score
text, when present, parses as a float. -/
def ratingOk (frag : Fragment) : Bool :=
  match frag.ratingScoreText with
  | none => true
  | some s => (pyFloat (pyStrip s)).isSome

/-! Concrete inputs used by the analysis below. -/

/-- A fragment whose rating-score text is not a parsable number. -/
def fragRatingBad : Fragment :=
  { nameText := some "Grand Hotel".data,
    locationText := some "Hotel in Paris,\nFrance".data,
    starCount := 4, ratingScoreText := some "N/A".data,
    ratingTextText := some "Very good".data,
    priceBox := some
      { amountText := some "£1,234".data,
        providerSrc := some "/img/provider_logos/booking.png".data,
        roomTypeText := some "Double room".data,
        cancellationText := some "Free cancellation".data },
    tennisSection := some
      [{ spans := ["Number of all tennis courts total".data, "6 courts".data],
         surfaceDivs := [] }] }

/-- The same fragment with a parsable rating-score text. -/
def fragRatingOk : Fragment := { fragRatingBad with ratingScoreText := some "8.5".data }

/-- A fragment whose price text contains a pound amount followed by more
words, as price boxes commonly render it. -/
def fragPricePerNight : Fragment :=
  { nameText := some "Hotel A".data, locationText := none, starCount := 0,
    ratingScoreText := none, ratingTextText := none,
    priceBox := some
      { amountText := some "£100 per night".data, providerSrc := none,
        roomTypeText := none, cancellationText := none },
    tennisSection := none }

/-- The same fragment with a price text that is exactly a pound amount. -/
def fragPriceClean : Fragment :=
  { fragPricePerNight with
    priceBox := some
      { amountText := some "£1,234".data, providerSrc := none,
        roomTypeText := none, cancellationText := none } }

/-- The error oracle of a run in which no SQL statement raises. -/
def noRecErr : Nat → Nat → Bool := fun _ _ => false

/-- The error oracle of a run in which every SQL statement raises. -/
def allErr : Nat → Nat → Bool := fun _ _ => true

/-- A complete JSON hotel record with price and tennis data. -/
def recLisbonA : JHotel :=
  { name := some "Hotel A".data, location := some "Lisbon".data,
    country := some "Portugal".data, sourceCountry := some "World".data,
    starRating := some 4, ratingScore := some 9, ratingText := some "Superb".data,
    pageNumber := some 1, scrapeTimestamp := some "2025-01-01T00:00:00".data,
    price := some
      { amount := some 150, currency := some "GBP".data,
        provider := some "booking".data, roomType := some "Double".data,
        cancellationPolicy := some "Free".data },
    tennis := some
      { totalCourts := some 3, lightedCourts := some 1,
        openingHours := some "8-20".data, courtCost := some "10".data,
        lessonsAvailable := some true, lessonsCost := some "30".data,
        equipmentRental := some true, equipmentCost := some "5".data,
        tennisCamps := some false, tournaments := some false,
        tennisShop := some true, surfaceCounts := [("Clay".data, 2), ("Hard".data, 1)] } }

/-- A JSON record without the required name key. -/
def recNoName : JHotel :=
  { name := none, location := some "X".data, country := none, sourceCountry := none,
    starRating := none, ratingScore := none, ratingText := none, pageNumber := none,
    scrapeTimestamp := none, price := none, tennis := none }

/-- The store after consolidating the file [recLisbonA] once into an empty
store. -/
def consOnce : ConsDB := (processJsonFile noRecErr "N".data emptyConsDB [recLisbonA]).1

/-- The store after consolidating the same file a second time. -/
def consTwice : ConsDB := (processJsonFile noRecErr "N".data consOnce [recLisbonA]).1

/-- A Nominatim stub that always fails (network error or empty result list). -/
def netNone : Str → Option GeoData := fun _ => none

/-- A fixed successful Nominatim result. -/
def geoLisbon : GeoData :=
  { lat := 1, lon := 2, countryCode := "pt".data,
    formattedAddress := "Lisboa, Portugal".data }

/-- A Nominatim stub that always answers with geoLisbon. -/
def netAlways : Str → Option GeoData := fun _ => some geoLisbon

/-- A database in which two hotels share the location "Lisbon", one with the
country already set to "France" and one with an empty country, and the
location already has a geocoding row whose formatted address ends in
"Portugal". -/
def geoDbShared : GeoDB :=
  { hotels := [⟨1, some "Lisbon".data, some "France".data⟩,
               ⟨2, some "Lisbon".data, some "".data⟩],
    geocoding := [⟨"Lisbon".data, 1, 2, "pt".data,
                   "Lisboa, Grande Lisboa, Portugal".data⟩] }

/-! Section 8: helper lemmas about the string primitives. -/

theorem dropWhile_eq_self_of_head {p : Char → Bool} :
    ∀ {l : Str}, (∀ c, l.head? = some c → p c = false) → l.dropWhile p = l := by
  intro l h
  cases l with
  | nil => rfl
  | cons a t =>
    have ha := h a rfl
    simp [List.dropWhile_cons, ha]

theorem mem_of_getLast?_eq {l : Str} {c : Char} (h : l.getLast? = some c) : c ∈ l := by
  have hm : c ∈ l.getLast? := by rw [h]; rfl
  obtain ⟨hne, he⟩ := List.mem_getLast?_eq_getLast hm
  rw [he]
  exact List.getLast_mem hne

theorem pyStrip_eq_self {l : Str}
    (h1 : ∀ c, l.head? = some c → pyIsSpace c = false)
    (h2 : ∀ c, l.getLast? = some c → pyIsSpace c = false) : pyStrip l = l := by
  unfold pyStrip
  rw [dropWhile_eq_self_of_head h1]
  rw [dropWhile_eq_self_of_head (by intro c hc; exact h2 c (by rwa [List.head?_reverse] at hc))]
  exact List.reverse_reverse l

theorem pyStrip_cons_space {c : Char} {l : Str} (h : pyIsSpace c = true) :
    pyStrip (c :: l) = pyStrip l := by
  unfold pyStrip
  rw [List.dropWhile_cons, if_pos h]

theorem eraseAux_skip {pat : Str} : ∀ (l rest : Str), eraseAux pat l.length (l ++ rest) =
    eraseAux pat 0 rest := by
  intro l
  induction l with
  | nil => intro rest; rfl
  | cons c t ih => intro rest; simpa [eraseAux] using ih rest

theorem eraseOccs_prefix {pat rest : Str} (h : pat ≠ []) :
    eraseOccs pat (pat ++ rest) = eraseOccs pat rest := by
  cases pat with
  | nil => exact absurd rfl h
  | cons p ps =>
    have hpre : (p :: ps).isPrefixOf ((p :: ps) ++ rest) = true := by
      rw [List.isPrefixOf_iff_prefix]
      exact List.prefix_append _ _
    show eraseAux (p :: ps) 0 (p :: (ps ++ rest)) = eraseAux (p :: ps) 0 rest
    rw [eraseAux, if_pos ⟨hpre, h⟩]
    simpa using eraseAux_skip ps rest

theorem eraseOccs_of_not_occurs {pat : Str} : ∀ {s : Str}, occursIn pat s = false →
    eraseOccs pat s = s := by
  intro s
  induction s with
  | nil => intro _; rfl
  | cons c t ih =>
    intro h
    rw [occursIn, Bool.or_eq_false_iff] at h
    show eraseAux pat 0 (c :: t) = c :: t
    rw [eraseAux, if_neg (by simp [h.1])]
    exact congrArg (c :: ·) (ih h.2)

theorem takeBeforeOcc_of_not_occurs {pat : Str} : ∀ {s : Str}, occursIn pat s = false →
    takeBeforeOcc pat s = s := by
  intro s
  induction s with
  | nil => intro _; rfl
  | cons c t ih =>
    intro h
    rw [occursIn, Bool.or_eq_false_iff] at h
    rw [takeBeforeOcc, if_neg (by simp [h.1])]
    exact congrArg (c :: ·) (ih h.2)

theorem splitOnChar_of_not_mem {sep : Char} : ∀ {s : Str}, sep ∉ s →
    splitOnChar sep s = [s] := by
  intro s
  induction s with
  | nil => intro _; rfl
  | cons c t ih =>
    intro h
    have hc : ¬ c = sep := fun he => h (he ▸ List.mem_cons_self c t)
    have ht : sep ∉ t := fun hm => h (List.mem_cons_of_mem c hm)
    rw [splitOnChar, if_neg hc, ih ht]

theorem splitOnChar_append {sep : Char} : ∀ {a b : Str}, sep ∉ a → sep ∉ b →
    splitOnChar sep (a ++ sep :: b) = [a, b] := by
  intro a
  induction a with
  | nil =>
    intro b _ hb
    show splitOnChar sep (sep :: b) = [[], b]
    rw [splitOnChar, if_pos rfl, splitOnChar_of_not_mem hb]
  | cons c t ih =>
    intro b ha hb
    have hc : ¬ c = sep := fun he => ha (he ▸ List.mem_cons_self c t)
    have ht : sep ∉ t := fun hm => ha (List.mem_cons_of_mem c hm)
    show splitOnChar sep (c :: (t ++ sep :: b)) = [c :: t, b]
    rw [splitOnChar, if_neg hc, ih ht hb]

theorem eraseOccs_single {a : Char} : ∀ {l : Str},
    eraseOccs [a] l = l.filter (fun c => !(c == a)) := by
  intro l
  induction l with
  | nil => rfl
  | cons c t ih =>
    show eraseAux [a] 0 (c :: t) = List.filter (fun c => !(c == a)) (c :: t)
    by_cases hac : a = c
    · subst hac
      rw [eraseAux, if_pos (by simp [List.isPrefixOf])]
      simpa [List.filter_cons] using ih
    · rw [eraseAux, if_neg (by simp [List.isPrefixOf]; intro he; exact absurd he hac)]
      have hca : (c == a) = false := by simp; intro he; exact hac he.symm
      simpa [List.filter_cons, hca] using congrArg (c :: ·) ih

theorem not_space_of_isDigit {c : Char} (h : c.isDigit = true) : pyIsSpace c = false := by
  by_contra hne
  have hsp : pyIsSpace c = true := by revert hne; cases pyIsSpace c <;> simp
  have hor := hsp
  simp only [pyIsSpace, Bool.or_eq_true, decide_eq_true_eq] at hor
  rcases hor with ((((h1 | h1) | h1) | h1) | h1) | h1 <;> subst h1 <;> exact absurd h (by decide)

theorem isDigit_ne_plus {c : Char} (h : c.isDigit = true) : ¬ c = '+' := by
  intro he; subst he; exact absurd h (by decide)

theorem isDigit_ne_minus {c : Char} (h : c.isDigit = true) : ¬ c = '-' := by
  intro he; subst he; exact absurd h (by decide)

theorem isDigit_ne_comma {c : Char} (h : c.isDigit = true) : (c == ',') = false := by
  simp only [beq_eq_false_iff_ne, ne_eq]
  intro he; subst he; exact absurd h (by decide)

theorem takeWhile_all {p : Char → Bool} : ∀ {l : Str}, (∀ c ∈ l, p c = true) →
    l.takeWhile p = l := by
  intro l
  induction l with
  | nil => intro _; rfl
  | cons c t ih =>
    intro h
    rw [List.takeWhile_cons, if_pos (h c (List.mem_cons_self c t))]
    exact congrArg (c :: ·) (ih (fun d hd => h d (List.mem_cons_of_mem c hd)))

theorem dropWhile_all {p : Char → Bool} : ∀ {l : Str}, (∀ c ∈ l, p c = true) →
    l.dropWhile p = [] := by
  intro l
  induction l with
  | nil => intro _; rfl
  | cons c t ih =>
    intro h
    rw [List.dropWhile_cons, if_pos (h c (List.mem_cons_self c t))]
    exact ih (fun d hd => h d (List.mem_cons_of_mem c hd))

theorem pyStrip_all_digits {l : Str} (h : ∀ c ∈ l, c.isDigit = true) : pyStrip l = l := by
  refine pyStrip_eq_self (fun c hc => ?_) (fun c hc => ?_)
  · cases l with
    | nil => exact absurd hc (by simp)
    | cons a t =>
      have ha : a = c := by simpa using hc
      subst ha
      exact not_space_of_isDigit (h a (List.mem_cons_self a t))
  · exact not_space_of_isDigit (h c (mem_of_getLast?_eq hc))

theorem pyFloatMag_digits {l : Str} (hne : l ≠ []) (h : ∀ c ∈ l, c.isDigit = true) :
    pyFloatMag l = some (mkRat (Int.ofNat (digitsVal l)) 1) := by
  unfold pyFloatMag
  simp only [takeWhile_all h, dropWhile_all h]
  cases l with
  | nil => exact absurd rfl hne
  | cons c t => simp

theorem pyFloat_all_digits {l : Str} (hne : l ≠ []) (h : ∀ c ∈ l, c.isDigit = true) :
    pyFloat l = some (mkRat (Int.ofNat (digitsVal l)) 1) := by
  cases l with
  | nil => exact absurd rfl hne
  | cons c t =>
    have hc : c.isDigit = true := h c (List.mem_cons_self c t)
    have hs : pyStrip (c :: t) = c :: t := pyStrip_all_digits h
    unfold pyFloat
    rw [hs]
    show (if c = '+' then pyFloatMag t
          else if c = '-' then (pyFloatMag t).map (fun q => -q)
          else pyFloatMag (c :: t)) = some (mkRat (Int.ofNat (digitsVal (c :: t))) 1)
    rw [if_neg (isDigit_ne_plus hc), if_neg (isDigit_ne_minus hc)]
    exact pyFloatMag_digits hne h

theorem cleanPrice_eq_filter (l : Str) : cleanPrice l =
    l.filter (fun c => !(c == '£') && !(c == '$') && !(c == '€') && !(c == ',')) := by
  show eraseOccs [','] (eraseOccs ['€'] (eraseOccs ['$'] (eraseOccs ['£'] l))) = _
  rw [eraseOccs_single, eraseOccs_single, eraseOccs_single, eraseOccs_single]
  rw [List.filter_filter, List.filter_filter, List.filter_filter]
  refine List.filter_congr (fun a _ => ?_)
  cases h1 : a == '£' <;> cases h2 : a == '$' <;> cases h3 : a == '€' <;> cases h4 : a == ',' <;> rfl

theorem cleanPrice_glyph_digits {sym : Char} {ds : Str}
    (hsym : sym = '£' ∨ sym = '$' ∨ sym = '€')
    (hds : ∀ c ∈ ds, c.isDigit = true ∨ c = ',') :
    cleanPrice (sym :: ds) = ds.filter Char.isDigit := by
  rw [cleanPrice_eq_filter, List.filter_cons]
  have hsymf : (!(sym == '£') && !(sym == '$') && !(sym == '€') && !(sym == ',')) = false := by
    rcases hsym with h | h | h <;> subst h <;> rfl
  rw [if_neg (by simp [hsymf])]
  refine List.filter_congr (fun a ha => ?_)
  rcases hds a ha with h | h
  · have h1 : (a == '£') = false := by
      simp only [beq_eq_false_iff_ne, ne_eq]; intro he; subst he; exact absurd h (by decide)
    have h2 : (a == '$') = false := by
      simp only [beq_eq_false_iff_ne, ne_eq]; intro he; subst he; exact absurd h (by decide)
    have h3 : (a == '€') = false := by
      simp only [beq_eq_false_iff_ne, ne_eq]; intro he; subst he; exact absurd h (by decide)
    rw [h1, h2, h3, isDigit_ne_comma h, h]
    rfl
  · subst h
    rfl

theorem pyStrip_trimmed {l : Str} (hne : l ≠ [])
    (hh : pyIsSpace (l.headD ' ') = false) (hl : pyIsSpace (l.getLastD ' ') = false) :
    pyStrip l = l := by
  refine pyStrip_eq_self (fun c hc => ?_) (fun c hc => ?_)
  · cases l with
    | nil => exact absurd rfl hne
    | cons a t =>
      have ha : a = c := by simpa using hc
      subst ha
      simpa using hh
  · have hd : l.getLastD ' ' = c := by
      rw [List.getLastD_eq_getLast?, hc]
      rfl
    rw [← hd]
    exact hl

theorem prefixHeadFacts : ∀ p ∈ prefixesToRemove,
    p.isEmpty = false ∧ pyIsSpace (p.headD ' ') = false := by decide

theorem stripPropertyType_first : ∀ {L : List Str} {p raw : Str}, p ∈ L →
    p.isPrefixOf raw = true → (∀ q ∈ L, q.isPrefixOf raw = true → q = p) →
    stripPropertyType L raw = pyStrip (eraseOccs p raw) := by
  intro L
  induction L with
  | nil => intro p raw hp; exact absurd hp (List.not_mem_nil p)
  | cons q ls ih =>
    intro p raw hp hpre hfirst
    by_cases hq : q.isPrefixOf raw = true
    · have : q = p := hfirst q (List.mem_cons_self q ls) hq
      subst this
      rw [stripPropertyType, if_pos hq]
    · have hpl : p ∈ ls := by
        rcases List.mem_cons.mp hp with he | hm
        · subst he; exact absurd hpre hq
        · exact hm
      rw [stripPropertyType, if_neg (by simpa using hq)]
      exact ih hpl hpre (fun r hr hrp => hfirst r (List.mem_cons_of_mem q hr) hrp)

theorem parseLocationCountry_eq {p city country : Str}
    (hp : p ∈ prefixesToRemove)
    (hfirst : ∀ q ∈ prefixesToRemove,
      q.isPrefixOf (p ++ ' ' :: (city ++ '\n' :: country)) = true → q = p)
    (hnocc : occursIn p (' ' :: (city ++ '\n' :: country)) = false)
    (hsom : occursIn showOnMap (city ++ '\n' :: country) = false)
    (hcity : city ≠ []) (hcountry : country ≠ [])
    (hch : pyIsSpace (city.headD ' ') = false)
    (hcl : pyIsSpace (city.getLastD ' ') = false)
    (hcoh : pyIsSpace (country.headD ' ') = false)
    (hcol : pyIsSpace (country.getLastD ' ') = false)
    (hcn : '\n' ∉ city) (hcon : '\n' ∉ country) :
    parseLocationCountry (p ++ ' ' :: (city ++ '\n' :: country)) =
      (rstripComma city, country) := by
  have hpf := prefixHeadFacts p hp
  have hpne : p ≠ [] := by
    intro he; rw [he] at hpf; exact absurd hpf.1 (by decide)
  have hmidlast : (city ++ '\n' :: country).getLast? = country.getLast? := by
    have hre : city ++ '\n' :: country = (city ++ ['\n']) ++ country := by simp
    rw [hre, List.getLast?_append_of_ne_nil _ hcountry]
  have hmidstrip : pyStrip (city ++ '\n' :: country) = city ++ '\n' :: country := by
    refine pyStrip_eq_self (fun c hc => ?_) (fun c hc => ?_)
    · cases city with
      | nil => exact absurd rfl hcity
      | cons a t =>
        have ha : a = c := by simpa using hc
        subst ha
        simpa using hch
    · rw [hmidlast] at hc
      have hd : country.getLastD ' ' = c := by
        rw [List.getLastD_eq_getLast?, hc]; rfl
      rw [← hd]; exact hcol
  have hrawstrip : pyStrip (p ++ ' ' :: (city ++ '\n' :: country)) =
      p ++ ' ' :: (city ++ '\n' :: country) := by
    refine pyStrip_eq_self (fun c hc => ?_) (fun c hc => ?_)
    · cases p with
      | nil => exact absurd rfl hpne
      | cons a t =>
        have ha : a = c := by simpa using hc
        subst ha
        simpa using hpf.2
    · have hre : p ++ ' ' :: (city ++ '\n' :: country) =
          (p ++ ' ' :: city ++ ['\n']) ++ country := by simp
      rw [hre, List.getLast?_append_of_ne_nil _ hcountry] at hc
      have hd : country.getLastD ' ' = c := by
        rw [List.getLastD_eq_getLast?, hc]; rfl
      rw [← hd]; exact hcol
  have hppre : p.isPrefixOf (p ++ ' ' :: (city ++ '\n' :: country)) = true := by
    rw [List.isPrefixOf_iff_prefix]
    exact List.prefix_append _ _
  have hcs : pyStrip city = city := pyStrip_trimmed hcity hch hcl
  have hcos : pyStrip country = country := pyStrip_trimmed hcountry hcoh hcol
  have hie1 : city.isEmpty = false := by
    cases city with
    | nil => exact absurd rfl hcity
    | cons a t => rfl
  have hie2 : country.isEmpty = false := by
    cases country with
    | nil => exact absurd rfl hcountry
    | cons a t => rfl
  simp only [parseLocationCountry]
  rw [hrawstrip, stripPropertyType_first hp hppre hfirst, eraseOccs_prefix hpne,
    eraseOccs_of_not_occurs hnocc, pyStrip_cons_space (by decide), hmidstrip,
    takeBeforeOcc_of_not_occurs hsom, hmidstrip,
    splitOnChar_append hcn hcon]
  simp [hcs, hcos, List.filter_cons, hie1, hie2]

/-! Section 9: pagination lemmas and claim C7. -/

theorem visitAux_all_success {load nav : Nat → Bool} (hl : ∀ p, load p = true)
    (hn : ∀ p, nav p = true) : ∀ (f p : Nat), visitAux load nav p f = List.range' p (f + 1) := by
  intro f
  induction f with
  | zero => intro p; simp [visitAux]
  | succ k ih =>
    intro p
    rw [visitAux, hl p]
    simp only [Bool.not_true, Bool.false_eq_true, if_false]
    rw [hn p, if_pos rfl, ih (p + 1)]
    exact (List.range'_succ p (k + 1) 1).symm

theorem visitAux_mem_le {load nav : Nat → Bool} : ∀ (f p q : Nat),
    q ∈ visitAux load nav p f → q ≤ p + f := by
  intro f
  induction f with
  | zero =>
    intro p q hq
    have : q = p := by simpa [visitAux] using hq
    omega
  | succ k ih =>
    intro p q hq
    rw [visitAux] at hq
    by_cases hl : load p = true
    · rw [hl] at hq
      simp only [Bool.not_true, Bool.false_eq_true, if_false] at hq
      by_cases hn : nav p = true
      · rw [hn, if_pos rfl] at hq
        rcases List.mem_cons.mp hq with he | hm
        · omega
        · have := ih (p + 1) q hm
          omega
      · rw [if_neg (by simpa using hn)] at hq
        have : q = p := by simpa using hq
        omega
    · rw [if_pos (by simpa using hl)] at hq
      have : q = p := by simpa using hq
      omega

/-- Claim C7: for every walk whose first page's pagination controls have
maximum numeric page-indicator value N, the walker requests exactly pages 1
through N (when every page loads and every navigation succeeds), never
requests a page beyond N, and when no numeric page indicators are present the
total defaults to 1 so only page 1 is visited. -/
theorem C7_pagination :
    (∀ titles, pageTitleNumbers titles = [] → getTotalPages titles = 1)
    ∧ (∀ (load nav : Nat → Bool) titles, 1 ≤ getTotalPages titles →
        (∀ p, load p = true) → (∀ p, nav p = true) →
        visitedPages load nav (getTotalPages titles) 1 =
          List.range' 1 (getTotalPages titles))
    ∧ (∀ (load nav : Nat → Bool) titles q, 1 ≤ getTotalPages titles →
        q ∈ visitedPages load nav (getTotalPages titles) 1 → q ≤ getTotalPages titles)
    ∧ (∀ (load nav : Nat → Bool), visitedPages load nav 1 1 = [1]) := by
  refine ⟨?_, ?_, ?_, ?_⟩
  · intro titles h
    rw [getTotalPages, h]
  · intro load nav titles hN hl hn
    rw [visitedPages, visitAux_all_success hl hn]
    have : getTotalPages titles - 1 + 1 = getTotalPages titles := by omega
    rw [this]
  · intro load nav titles q hN hq
    rw [visitedPages] at hq
    have := visitAux_mem_le _ _ _ hq
    omega
  · intro load nav
    rfl

/-- Witness for C7 at a control set with numeric titles 3 and 2: three pages
are visited, exactly 1, 2, 3. -/
theorem C7_pagination_witness :
    1 ≤ getTotalPages [some "3".data, some "2".data] ∧
    visitedPages (fun _ => true) (fun _ => true)
        (getTotalPages [some "3".data, some "2".data]) 1 =
      List.range' 1 (getTotalPages [some "3".data, some "2".data]) :=
  ⟨by decide, C7_pagination.2.1 (fun _ => true) (fun _ => true)
    [some "3".data, some "2".data] (by decide) (fun _ => rfl) (fun _ => rfl)⟩

/-! Section 10: checkpoint-file lemmas and claim C8. -/

theorem getFile_setFile_same {α : Type} (n : Str) (d : List α) (fs : Files α) :
    getFile n (setFile n d fs) = some d := by
  simp [getFile, setFile, List.find?]

theorem find?_filter_other {α : Type} {n m : Str} (h : ¬ m = n) : ∀ fs : Files α,
    (fs.filter (fun e => !(e.1 == n))).find? (fun e => e.1 == m) =
      fs.find? (fun e => e.1 == m) := by
  intro fs
  induction fs with
  | nil => rfl
  | cons e t ih =>
    by_cases he : e.1 == n
    · have hem : (e.1 == m) = false := by
        simp only [beq_iff_eq] at he
        simp [he]
        intro hc
        exact h hc.symm
      rw [List.filter_cons, if_neg (by simp [he]), List.find?_cons, hem, ih]
    · rw [List.filter_cons, if_pos (by simp [he]), List.find?_cons, List.find?_cons]
      cases hm : (e.1 == m) with
      | true => rfl
      | false => exact ih

theorem getFile_setFile_other {α : Type} {n m : Str} (h : ¬ m = n) (d : List α)
    (fs : Files α) : getFile m (setFile n d fs) = getFile m fs := by
  have hnm : (n == m) = false := by
    simp only [beq_eq_false_iff_ne, ne_eq]
    intro hc
    exact h hc.symm
  rw [getFile, setFile, List.find?_cons]
  simp only [hnm]
  rw [find?_filter_other h]
  rfl

theorem checkpointFileName_len (p : Nat) :
    (checkpointFileName p).length = 35 + (natStr p).length := by
  have h30 : ("tennis_hotels_checkpoint_page_".data).length = 30 := rfl
  have h5 : (".json".data).length = 5 := rfl
  rw [checkpointFileName]
  simp [h30, h5]
  omega

theorem main_ne_checkpointFileName (p : Nat) : ¬ mainFileName = checkpointFileName p := by
  intro h
  have hlen := congrArg List.length h
  rw [checkpointFileName_len] at hlen
  have h18 : mainFileName.length = 18 := rfl
  omega

theorem saveCheckpoint_ok {α : Type} (data : List α) (p : Nat) (fs : Files α) :
    getFile (checkpointFileName p) (saveCheckpoint false false data p fs) = some data ∧
    getFile mainFileName (saveCheckpoint false false data p fs) = some data := by
  show getFile _ (setFile mainFileName data (setFile (checkpointFileName p) data fs)) =
      some data ∧ getFile _ (setFile mainFileName data _) = some data
  constructor
  · rw [getFile_setFile_other (fun he => main_ne_checkpointFileName p he.symm)]
    exact getFile_setFile_same _ _ _
  · exact getFile_setFile_same _ _ _

theorem walkCheckpoints_latest {α : Type} : ∀ (pgs : List (List α)) (p : Nat)
    (acc : List α) (fs : Files α), pgs ≠ [] →
    getFile mainFileName
        (walkCheckpoints (fun _ => false) (fun _ => false) p acc fs pgs).2 =
      some (walkCheckpoints (fun _ => false) (fun _ => false) p acc fs pgs).1 ∧
    getFile (checkpointFileName (p + pgs.length - 1))
        (walkCheckpoints (fun _ => false) (fun _ => false) p acc fs pgs).2 =
      some (walkCheckpoints (fun _ => false) (fun _ => false) p acc fs pgs).1 := by
  intro pgs
  induction pgs with
  | nil => intro p acc fs h; exact absurd rfl h
  | cons pg rest ih =>
    intro p acc fs _
    cases rest with
    | nil =>
      show getFile mainFileName (saveCheckpoint false false (acc ++ pg) p fs) =
          some (acc ++ pg) ∧
        getFile (checkpointFileName (p + 1 - 1))
          (saveCheckpoint false false (acc ++ pg) p fs) = some (acc ++ pg)
      have hsv := saveCheckpoint_ok (acc ++ pg) p fs
      have hp1 : p + 1 - 1 = p := by omega
      rw [hp1]
      exact ⟨hsv.2, hsv.1⟩
    | cons r rs =>
      have step : walkCheckpoints (fun _ => false) (fun _ => false) p acc fs
          (pg :: r :: rs) =
        walkCheckpoints (fun _ => false) (fun _ => false) (p + 1) (acc ++ pg)
          (saveCheckpoint false false (acc ++ pg) p fs) (r :: rs) := rfl
      rw [step]
      have hlen : p + (pg :: r :: rs).length - 1 = (p + 1) + (r :: rs).length - 1 := by
        simp
        omega
      rw [hlen]
      exact ih (p + 1) (acc ++ pg) _ (by simp)

theorem walkCheckpoints_collects {α : Type} : ∀ (pgs : List (List α))
    (w1 w2 : Nat → Bool) (p : Nat) (acc : List α) (fs : Files α),
    (walkCheckpoints w1 w2 p acc fs pgs).1 = acc ++ pgs.flatten := by
  intro pgs
  induction pgs with
  | nil => intro w1 w2 p acc fs; simp [walkCheckpoints]
  | cons pg rest ih =>
    intro w1 w2 p acc fs
    show (walkCheckpoints w1 w2 (p + 1) (acc ++ pg) _ rest).1 = acc ++ (pg :: rest).flatten
    rw [ih]
    simp

/-- Claim C8, corrected: in the single-walk scraper the checkpoint of each
completed page holds the full accumulated record list, the latest file is
overwritten with the same content (so after the walk the latest file equals
the checkpoint of the most recently completed page), a page checkpoint fully
overwrites whatever the file system held before, and write failures never
change which records the walk collects.  The country-sweep walk behaves
differently, see the counterexample. -/
theorem C8_checkpoint_amended :
    (∀ (α : Type) (data : List α) (p : Nat) (fs : Files α),
      getFile (checkpointFileName p) (saveCheckpoint false false data p fs) = some data ∧
      getFile mainFileName (saveCheckpoint false false data p fs) = some data)
    ∧ (∀ (α : Type) (pgs : List (List α)) (p : Nat) (acc : List α) (fs : Files α),
        pgs ≠ [] →
        getFile mainFileName
            (walkCheckpoints (fun _ => false) (fun _ => false) p acc fs pgs).2 =
          some (walkCheckpoints (fun _ => false) (fun _ => false) p acc fs pgs).1 ∧
        getFile (checkpointFileName (p + pgs.length - 1))
            (walkCheckpoints (fun _ => false) (fun _ => false) p acc fs pgs).2 =
          some (walkCheckpoints (fun _ => false) (fun _ => false) p acc fs pgs).1)
    ∧ (∀ (α : Type) (pgs : List (List α)) (w1 w2 : Nat → Bool) (p : Nat)
        (acc : List α) (fs : Files α),
        (walkCheckpoints w1 w2 p acc fs pgs).1 = acc ++ pgs.flatten) :=
  ⟨fun _ => saveCheckpoint_ok,
   fun _ pgs p acc fs h => walkCheckpoints_latest pgs p acc fs h,
   fun _ pgs w1 w2 p acc fs => walkCheckpoints_collects pgs w1 w2 p acc fs⟩

/-- Witness for C8 on a two-page walk collecting records 1 and 2. -/
theorem C8_checkpoint_witness :
    ([[1], [2]] : List (List Nat)) ≠ [] ∧
    (getFile mainFileName
        (walkCheckpoints (fun _ => false) (fun _ => false) 1 [] [] [[1], [2]]).2 =
      some (walkCheckpoints (fun _ => false) (fun _ => false) 1 ([] : List Nat) []
        [[1], [2]]).1 ∧
    getFile (checkpointFileName (1 + ([[1], [2]] : List (List Nat)).length - 1))
        (walkCheckpoints (fun _ => false) (fun _ => false) 1 [] [] [[1], [2]]).2 =
      some (walkCheckpoints (fun _ => false) (fun _ => false) 1 ([] : List Nat) []
        [[1], [2]]).1) :=
  ⟨by decide, C8_checkpoint_amended.2.1 Nat [[1], [2]] 1 [] [] (by decide)⟩

/-- Counterexample for C8 as stated: in the country-sweep walk over two pages
with records 1 and 2, the page-2 checkpoint file holds only the page-2 record,
not the two records collected so far, and no latest file exists at all. -/
theorem C8_checkpoint_counterexample :
    (sweepCountry "Portugal".data 1 ([] : List Nat) [] [[1], [2]]).1 = [1, 2] ∧
    getFile (countryCheckpointName "Portugal".data 2)
        (sweepCountry "Portugal".data 1 ([] : List Nat) [] [[1], [2]]).2 = some [2] ∧
    getFile mainFileName
        (sweepCountry "Portugal".data 1 ([] : List Nat) [] [[1], [2]]).2 = none := by
  decide

/-! Section 11: consolidator insert lemmas and claims C9 and C3. -/

theorem insertHotelData_rollback (err : Nat → Bool) (now : Str) (db : ConsDB)
    (h : JHotel) (out : ConsDB × Bool) : insertHotelData err now db h = some out →
    out.2 = false → out.1 = db := by
  unfold insertHotelData
  split
  · intro he; cases he
  · split
    · intro he _; cases he; rfl
    · split
      · intro he _; cases he; rfl
      · split
        · intro he _; cases he; rfl
        · intro he hf; cases he; exact absurd hf (by simp)

theorem processRecords_shift (err : Nat → Nat → Bool) (now : Str) :
    ∀ (l : List JHotel) (k : Nat) (db : ConsDB),
    processRecords err now (k + 1) db l =
      processRecords (fun i => err (i + 1)) now k db l := by
  intro l
  induction l with
  | nil => intro k db; rfl
  | cons h t ih =>
    intro k db
    simp only [processRecords]
    cases insertHotelData (err (k + 1)) now db h with
    | none => rfl
    | some r =>
      show ((processRecords err now (k + 1 + 1) r.1 t).1,
          (processRecords err now (k + 1 + 1) r.1 t).2 +
            if r.2 = true then 1 else 0) =
        ((processRecords (fun i => err (i + 1)) now (k + 1) r.1 t).1,
          (processRecords (fun i => err (i + 1)) now (k + 1) r.1 t).2 +
            if r.2 = true then 1 else 0)
      rw [ih (k + 1)]

/-- Claim C9 settled against the faithful model: when the record carries a
name key, any statement failure is caught, the transaction is rolled back to
the incoming store, False is returned, and the batch continues as if the
record were absent; but a record missing the name key makes insert_hotel_data
raise (the except handler's log f-string re-raises the KeyError), so no
failure indicator is returned and process_json_file aborts the file returning
0 — here the second, perfectly insertable record is never processed. -/
theorem C9_insert_eval :
    (∀ (err : Nat → Bool) (now : Str) (db : ConsDB) (h : JHotel)
        (out : ConsDB × Bool), insertHotelData err now db h = some out →
        out.2 = false → out.1 = db)
    ∧ (∀ (err : Nat → Nat → Bool) (now : Str) (db : ConsDB) (h : JHotel)
        (rest : List JHotel) (out : ConsDB × Bool),
        insertHotelData (err 0) now db h = some out → out.2 = false →
        processJsonFile err now db (h :: rest) =
          processJsonFile (fun i => err (i + 1)) now db rest)
    ∧ insertHotelData (noRecErr 0) "T".data emptyConsDB recNoName = none
    ∧ processJsonFile noRecErr "T".data emptyConsDB [recNoName, recLisbonA] =
        (emptyConsDB, 0) := by
  refine ⟨insertHotelData_rollback, ?_, by decide, by decide⟩
  intro err now db h rest out he hf
  have hdb : out.1 = db := insertHotelData_rollback (err 0) now db h out he hf
  show (match insertHotelData (err 0) now db h with
        | none => (db, 0)
        | some r =>
          let rec2 := processRecords err now 1 r.1 rest
          (rec2.1, rec2.2 + (if r.2 then 1 else 0))) = _
  rw [he]
  simp only [hf, hdb, if_false, Bool.false_eq_true]
  rw [processRecords_shift]
  rfl

/-- Witness for C9: a record whose name is present and whose hotel-insert
statement raises is rolled back, reported False, and skipped by the batch. -/
theorem C9_insert_eval_witness :
    insertHotelData (allErr 0) "T".data emptyConsDB recLisbonA =
      some (emptyConsDB, false) ∧
    processJsonFile allErr "T".data emptyConsDB [recLisbonA] =
      processJsonFile (fun i => allErr (i + 1)) "T".data emptyConsDB [] :=
  ⟨by decide,
   C9_insert_eval.2.1 allErr "T".data emptyConsDB recLisbonA []
     (emptyConsDB, false) (by decide) (by decide)⟩

theorem insertSurfaceRows_noerr : ∀ (l : List (Str × Nat)) (fid k : Nat) (db : ConsDB),
    ∃ db2, insertSurfaceRows (fun _ => false) fid k db l = some db2 ∧
      db2.hotels = db.hotels ∧ db2.prices = db.prices ∧ db2.facilities = db.facilities := by
  intro l
  induction l with
  | nil => intro fid k db; exact ⟨db, rfl, rfl, rfl, rfl⟩
  | cons sc rest ih =>
    intro fid k db
    obtain ⟨db2, hrw, hh, hp, hf⟩ := ih fid (k + 1)
      { db with
        surfaces := db.surfaces ++ [⟨db.surfacesSeq + 1, fid, sc.1, sc.2⟩],
        surfacesSeq := db.surfacesSeq + 1 }
    exact ⟨db2, hrw, hh, hp, hf⟩

theorem insertPriceStep_noerr (hid : Nat) (h : JHotel) (db1 : ConsDB) :
    ∃ db2, insertPriceStep (fun _ => false) hid h db1 = some db2 ∧
      db2.hotels = db1.hotels ∧
      db2.prices.length = db1.prices.length + (if h.price.isSome then 1 else 0) ∧
      db2.facilities = db1.facilities := by
  cases hp : h.price with
  | none => exact ⟨db1, by simp [insertPriceStep, hp], rfl, by simp [hp], rfl⟩
  | some p =>
    refine ⟨{ db1 with
      prices := db1.prices ++
        [⟨db1.pricesSeq + 1, hid, p.amount, p.currency, p.provider,
          p.roomType, p.cancellationPolicy⟩],
      pricesSeq := db1.pricesSeq + 1 }, ?_, rfl, ?_, rfl⟩
    · simp [insertPriceStep, hp]
    · simp [hp]

theorem insertTennisStep_noerr (hid : Nat) (h : JHotel) (db2 : ConsDB) :
    ∃ dbf, insertTennisStep (fun _ => false) hid h db2 = some dbf ∧
      dbf.hotels = db2.hotels ∧ dbf.prices = db2.prices ∧
      dbf.facilities.length = db2.facilities.length +
        (if h.tennis.isSome then 1 else 0) := by
  cases ht : h.tennis with
  | none => exact ⟨db2, by simp [insertTennisStep, ht], rfl, rfl, by simp [ht]⟩
  | some t =>
    obtain ⟨dbf, hrw, hh, hp, hf⟩ := insertSurfaceRows_noerr t.surfaceCounts
      (db2.facilitiesSeq + 1) 3
      { db2 with
        facilities := db2.facilities ++
          [⟨db2.facilitiesSeq + 1, hid, t.totalCourts.getD 0,
            t.lightedCourts.getD 0, t.openingHours.getD [],
            t.courtCost.getD [], t.lessonsAvailable.getD false,
            t.lessonsCost.getD [], t.equipmentRental.getD false,
            t.equipmentCost.getD [], t.tennisCamps.getD false,
            t.tournaments.getD false, t.tennisShop.getD false⟩],
        facilitiesSeq := db2.facilitiesSeq + 1 }
    refine ⟨dbf, ?_, ?_, ?_, ?_⟩
    · simp only [insertTennisStep, ht]
      rw [if_neg (by decide)]
      exact hrw
    · rw [hh]
    · rw [hp]
    · rw [hf]
      simp [ht]

theorem sameHotelKey_self (now nm : Str) (h : JHotel) (i : Nat) :
    sameHotelKey (hotelRowOf now nm h i) nm (h.location.getD [])
      (h.scrapeTimestamp.getD now) = true := by
  simp [sameHotelKey, hotelRowOf]

theorem insertHotelData_noerr (now : Str) (h : JHotel) (nm : Str)
    (hn : h.name = some nm) (db : ConsDB) :
    ∃ dbf, insertHotelData (fun _ => false) now db h = some (dbf, true) ∧
      dbf.hotels = db.hotels.filter (fun a =>
        !(sameHotelKey a nm (h.location.getD []) (h.scrapeTimestamp.getD now))) ++
        [hotelRowOf now nm h (db.hotelsSeq + 1)] ∧
      dbf.prices.length = db.prices.length + (if h.price.isSome then 1 else 0) ∧
      dbf.facilities.length = db.facilities.length +
        (if h.tennis.isSome then 1 else 0) := by
  obtain ⟨db2, hp2, hh2, hpl2, hfc2⟩ := insertPriceStep_noerr (db.hotelsSeq + 1) h
    { db with
      hotels := db.hotels.filter (fun a =>
        !(sameHotelKey a nm (h.location.getD []) (h.scrapeTimestamp.getD now))) ++
        [hotelRowOf now nm h (db.hotelsSeq + 1)],
      hotelsSeq := db.hotelsSeq + 1 }
  obtain ⟨dbf, ht3, hh3, hpl3, hfl3⟩ := insertTennisStep_noerr (db.hotelsSeq + 1) h db2
  refine ⟨dbf, ?_, ?_, ?_, ?_⟩
  · simp only [insertHotelData, hn]
    rw [if_neg (by decide), hp2]
    show (match insertTennisStep (fun _ => false) (db.hotelsSeq + 1) h db2 with
          | none => some (db, false)
          | some dbf => some (dbf, true)) = some (dbf, true)
    rw [ht3]
  · rw [hh3, hh2]
  · rw [hpl3, hpl2]
  · rw [hfl3, hfc2]

/-- Counterexample for C3 as stated: consolidating the file [recLisbonA] twice
leaves exactly one hotels row (the unique key collapses it), but the child
tables do gain duplicate rows: the prices, facilities and surfaces tables hold
two copies of the record's child data, the first copy referencing the replaced
hotel row's old id. -/
theorem C3_consolidate_counterexample :
    consOnce.hotels.length = 1 ∧ consOnce.prices.length = 1 ∧
    consOnce.facilities.length = 1 ∧ consOnce.surfaces.length = 2 ∧
    consTwice.hotels.length = 1 ∧ consTwice.prices.length = 2 ∧
    consTwice.facilities.length = 2 ∧ consTwice.surfaces.length = 4 ∧
    consTwice.prices.map (fun pr => (pr.amount, pr.currency)) =
      [(some 150, some "GBP".data), (some 150, some "GBP".data)] ∧
    consTwice.hotels.map (fun a => a.id) = [2] ∧
    consTwice.prices.map (fun pr => pr.hotelId) = [1, 2] := by
  decide

/-- Claim C3, corrected: consolidating the same one-record file twice is
idempotent on the hotels table — the unique (name, location, scrape_timestamp)
key collapses the row, leaving exactly one hotels row — but each pass appends
a fresh price child row and a fresh facilities child row, so the child tables
are duplicated rather than collapsed. -/
theorem C3_consolidate_amended : ∀ (now : Str) (h : JHotel) (nm : Str),
    h.name = some nm →
    (processJsonFile noRecErr now
        ((processJsonFile noRecErr now emptyConsDB [h]).1) [h]).1.hotels.length = 1 ∧
    (h.price.isSome = true →
      (processJsonFile noRecErr now
        ((processJsonFile noRecErr now emptyConsDB [h]).1) [h]).1.prices.length = 2) ∧
    (h.tennis.isSome = true →
      (processJsonFile noRecErr now
        ((processJsonFile noRecErr now emptyConsDB [h]).1) [h]).1.facilities.length = 2) := by
  intro now h nm hn
  obtain ⟨d1, he1, hh1, hp1, hf1⟩ := insertHotelData_noerr now h nm hn emptyConsDB
  obtain ⟨d2, he2, hh2, hp2, hf2⟩ := insertHotelData_noerr now h nm hn d1
  have hd1 : (processJsonFile noRecErr now emptyConsDB [h]).1 = d1 := by
    show (match insertHotelData (fun _ => false) now emptyConsDB h with
          | none => (emptyConsDB, 0)
          | some r => (r.1, 0 + if r.2 = true then 1 else 0)).1 = d1
    rw [he1]
  have hd2 : (processJsonFile noRecErr now
      ((processJsonFile noRecErr now emptyConsDB [h]).1) [h]).1 = d2 := by
    rw [hd1]
    show (match insertHotelData (fun _ => false) now d1 h with
          | none => (d1, 0)
          | some r => (r.1, 0 + if r.2 = true then 1 else 0)).1 = d2
    rw [he2]
  rw [hd2]
  have hh1s : d1.hotels = [hotelRowOf now nm h 1] := by
    rw [hh1]
    rfl
  have hhot : d2.hotels = [hotelRowOf now nm h (d1.hotelsSeq + 1)] := by
    rw [hh2, hh1s]
    rw [List.filter_cons, if_neg (by simp [sameHotelKey_self])]
    rfl
  refine ⟨by rw [hhot]; rfl, fun hps => ?_, fun hts => ?_⟩
  · rw [hp2, hp1, hps]
    simp [emptyConsDB]
  · rw [hf2, hf1, hts]
    simp [emptyConsDB]

/-- Witness for C3 applied to the concrete record recLisbonA. -/
theorem C3_consolidate_witness :
    recLisbonA.name = some "Hotel A".data ∧
    (processJsonFile noRecErr "N".data
        ((processJsonFile noRecErr "N".data emptyConsDB [recLisbonA]).1)
        [recLisbonA]).1.hotels.length = 1 :=
  ⟨by decide,
   (C3_consolidate_amended "N".data recLisbonA "Hotel A".data (by decide)).1⟩

/-! Section 12: geocoder lemmas and claims C6, C2 and C10. -/

/-- Counterexample for C6 as stated: when the external lookup fails (or
returns no result), nothing is cached, so resolving the same pair twice makes
two network requests, not at most one. -/
theorem C6_geocode_counterexample :
    (geocodeLocation netNone ⟨[]⟩ "Atlantis".data (some [])).2.2 = 1 ∧
    (geocodeLocation netNone
        (geocodeLocation netNone ⟨[]⟩ "Atlantis".data (some [])).2.1
        "Atlantis".data (some [])).2.2 = 1 := by
  decide

/-- Claim C6, corrected: one resolution makes at most one network request, and
whenever the first resolution of a pair returns a result, the second
resolution of the same pair against the resulting cache makes no network
request and returns the same result.  When the first resolution fails, nothing
was cached and the proviso does not apply. -/
theorem C6_geocode_amended (net : Str → Option GeoData) (st : GeoCache)
    (loc : Str) (country : Option Str) :
    (geocodeLocation net st loc country).2.2 ≤ 1 ∧
    ((geocodeLocation net st loc country).1.isSome = true →
      (geocodeLocation net (geocodeLocation net st loc country).2.1
          loc country).2.2 = 0 ∧
      (geocodeLocation net (geocodeLocation net st loc country).2.1
          loc country).1 = (geocodeLocation net st loc country).1) := by
  by_cases hloc : loc.isEmpty = true
  · simp [geocodeLocation, hloc]
  · cases hc : lookupCache (cacheKeyOf loc country) st.cache with
    | some v =>
      constructor
      · simp [geocodeLocation, hloc, hc]
      · intro _
        constructor <;> simp [geocodeLocation, hloc, hc]
    | none =>
      cases hn : net (searchQueryOf loc country) with
      | some g =>
        constructor
        · simp [geocodeLocation, hloc, hc, hn]
        · intro _
          have hc2 : lookupCache (cacheKeyOf loc country)
              ((cacheKeyOf loc country, g) :: st.cache) = some g := by
            simp [lookupCache]
          constructor <;> simp [geocodeLocation, hloc, hc, hn, hc2]
      | none =>
        constructor
        · simp [geocodeLocation, hloc, hc, hn]
        · intro hs
          rw [show (geocodeLocation net st loc country).1 = none by
            simp [geocodeLocation, hloc, hc, hn]] at hs
          cases hs

/-- Witness for C6: a successful stubbed resolution of "Lisbon, Portugal"
is answered from the cache on the second call. -/
theorem C6_geocode_witness :
    (geocodeLocation netAlways ⟨[]⟩ "Lisbon".data (some "Portugal".data)).1.isSome = true ∧
    ((geocodeLocation netAlways
        (geocodeLocation netAlways ⟨[]⟩ "Lisbon".data (some "Portugal".data)).2.1
        "Lisbon".data (some "Portugal".data)).2.2 = 0 ∧
     (geocodeLocation netAlways
        (geocodeLocation netAlways ⟨[]⟩ "Lisbon".data (some "Portugal".data)).2.1
        "Lisbon".data (some "Portugal".data)).1 =
      (geocodeLocation netAlways ⟨[]⟩ "Lisbon".data (some "Portugal".data)).1) :=
  ⟨by decide,
   (C6_geocode_amended netAlways ⟨[]⟩ "Lisbon".data (some "Portugal".data)).2 (by decide)⟩

/-- Claim C2 evaluated at the failing input: with two hotels sharing the
location "Lisbon", one with country "France" and one with an empty country,
the initial geocoding pass leaves the database unchanged (the location is
already geocoded), but the missing-country back-fill pass rewrites the country
of both hotels to "Portugal" — overwriting the non-empty "France". -/
theorem C2_geocoding_eval :
    (updateDatabaseGeocoding netNone ⟨[]⟩ geoDbShared).1 = geoDbShared ∧
    geoDbShared.hotels.map (fun a => a.country) =
      [some "France".data, some "".data] ∧
    (updateMissingCountries geoDbShared).hotels.map (fun a => a.country) =
      [some "Portugal".data, some "Portugal".data] := by
  decide

/-- Claim C10: constructing the consolidator's database handle deletes the
database file and recreates the four consolidator tables empty, whatever the
file held before — including the geocoding table, which is absent afterwards —
and the consolidator and the geocoder use the same database file name. -/
theorem C10_initialize_wipes (fs : Option DBFile) :
    initializeDatabase fs =
      some { hotelsTab := some [], pricesTab := some [], facilitiesTab := some [],
             surfacesTab := some [], geocodingTab := none } ∧
    consolidatorDbName = geocoderDbPath :=
  ⟨rfl, rfl⟩

/-! Section 13: extractor lemmas and claims C1, C4 and C5. -/

theorem extractHotelData_some {now : Str} {frag : Fragment} {r : HotelRecord}
    (h : extractHotelData now frag = some r) : ∃ rs, r = buildRecord now frag rs := by
  unfold extractHotelData at h
  cases ht : frag.ratingScoreText with
  | none =>
    simp only [ht] at h
    exact ⟨none, (Option.some_inj.mp h).symm⟩
  | some s =>
    simp only [ht] at h
    cases hf : pyFloat (pyStrip s) with
    | none => rw [hf] at h; cases h
    | some q => rw [hf] at h; exact ⟨some q, (Option.some_inj.mp h).symm⟩

/-- Counterexample for C1 as stated: a fragment whose rating-score text is
"N/A" makes extract return no record at all — the ValueError from the float
conversion at line 159 reaches the outer handler, which returns None, so the
record is discarded rather than returned with the field at its default. -/
theorem C1_extract_counterexample : extractHotelData "T".data fragRatingBad = none := by
  decide

/-- Claim C1, corrected: extraction always returns a record when the
rating-score text, if present, parses as a float — and under that proviso a
price text that does not parse is logged and leaves amount and currency at
their defaults, and a matched total-courts label whose value holds no digit
leaves the facility record unchanged; but a non-parsing rating-score text
makes extract return None (no exception escapes, the record is dropped). -/
theorem C1_extract_amended :
    (∀ (now : Str) (frag : Fragment), ratingOk frag = true →
      (extractHotelData now frag).isSome = true)
    ∧ (∀ (now : Str) (frag : Fragment) (pb : PriceBox) (raw : Str) (r : HotelRecord),
        frag.priceBox = some pb → pb.amountText = some raw →
        pyFloat (cleanPrice (pyStrip raw)) = none →
        extractHotelData now frag = some r →
        r.price.amount = none ∧ r.price.currency = "USD".data)
    ∧ (∀ (tf : TennisFacilities) (s0 s1 : Str) (rest sds : List Str),
        totalCourtsTokens.any (fun tok => occursIn tok (pyLower (pyStrip s0))) = true →
        pyIntDigits (pyStrip s1) = none →
        processTennisDiv tf ⟨s0 :: s1 :: rest, sds⟩ = tf) := by
  refine ⟨?_, ?_, ?_⟩
  · intro now frag hok
    unfold ratingOk at hok
    unfold extractHotelData
    cases ht : frag.ratingScoreText with
    | none => simp [ht]
    | some s =>
      simp only [ht] at hok ⊢
      cases hf : pyFloat (pyStrip s) with
      | none => rw [hf] at hok; cases hok
      | some q => simp [hf]
  · intro now frag pb raw r h1 h2 h3 h4
    obtain ⟨rs, hr⟩ := extractHotelData_some h4
    subst hr
    constructor <;> simp [buildRecord, h1, parsePriceBox, h2, parseAmount, h3]
  · intro tf s0 s1 rest sds htok hdig
    simp [processTennisDiv, htok, hdig]

/-- Witness for C1: the same fragment with rating-score text "8.5" yields a
record. -/
theorem C1_extract_witness :
    ratingOk fragRatingOk = true ∧
    (extractHotelData "T".data fragRatingOk).isSome = true :=
  ⟨by decide, C1_extract_amended.1 "T".data fragRatingOk (by decide)⟩

/-- Counterexample for C4 as stated: the price text "£100 per night" contains
"£" followed by digits, yet extraction leaves the amount absent and the
currency at "USD", because the float conversion of the cleaned text
"100 per night" raises. -/
theorem C4_price_counterexample :
    occursIn "£100".data "£100 per night".data = true ∧
    (extractHotelData "T".data fragPricePerNight).map
      (fun r => (r.price.amount, r.price.currency)) = some (none, "USD".data) := by
  decide

/-- Claim C4, corrected: for price texts consisting of a currency glyph
followed by digits with optional comma separators, the amount is the numeric
value with glyphs and separators removed and the currency becomes "GBP"; when
the price text is absent, the box is absent, or the cleaned text does not
parse as a float, the amount stays absent and the currency stays "USD". -/
theorem C4_price_amended :
    (∀ (now : Str) (frag : Fragment) (pb : PriceBox) (raw : Str) (sym : Char)
        (ds : Str) (r : HotelRecord),
        frag.priceBox = some pb → pb.amountText = some raw →
        pyStrip raw = sym :: ds → (sym = '£' ∨ sym = '$' ∨ sym = '€') →
        (∀ c ∈ ds, c.isDigit = true ∨ c = ',') → (∃ c ∈ ds, c.isDigit = true) →
        extractHotelData now frag = some r →
        r.price.amount =
          some (mkRat (Int.ofNat (digitsVal (ds.filter Char.isDigit))) 1) ∧
        r.price.currency = "GBP".data)
    ∧ (∀ (now : Str) (frag : Fragment) (pb : PriceBox) (raw : Str) (r : HotelRecord),
        frag.priceBox = some pb → pb.amountText = some raw →
        pyFloat (cleanPrice (pyStrip raw)) = none →
        extractHotelData now frag = some r →
        r.price.amount = none ∧ r.price.currency = "USD".data)
    ∧ (∀ (now : Str) (frag : Fragment) (pb : PriceBox) (r : HotelRecord),
        frag.priceBox = some pb → pb.amountText = none →
        extractHotelData now frag = some r →
        r.price.amount = none ∧ r.price.currency = "USD".data)
    ∧ (∀ (now : Str) (frag : Fragment) (r : HotelRecord),
        frag.priceBox = none → extractHotelData now frag = some r →
        r.price.amount = none ∧ r.price.currency = "USD".data) := by
  refine ⟨?_, ?_, ?_, ?_⟩
  · intro now frag pb raw sym ds r h1 h2 hstrip hsym hds hex h7
    have hclean : cleanPrice (pyStrip raw) = ds.filter Char.isDigit := by
      rw [hstrip]
      exact cleanPrice_glyph_digits hsym hds
    have hne : ds.filter Char.isDigit ≠ [] := by
      obtain ⟨c, hc, hcd⟩ := hex
      exact List.ne_nil_of_mem (List.mem_filter.mpr ⟨hc, hcd⟩)
    have hall : ∀ c ∈ ds.filter Char.isDigit, c.isDigit = true :=
      fun c hc => (List.mem_filter.mp hc).2
    have hfl : pyFloat (cleanPrice (pyStrip raw)) =
        some (mkRat (Int.ofNat (digitsVal (ds.filter Char.isDigit))) 1) := by
      rw [hclean]
      exact pyFloat_all_digits hne hall
    obtain ⟨rs, hr⟩ := extractHotelData_some h7
    subst hr
    constructor <;> simp [buildRecord, h1, parsePriceBox, h2, parseAmount, hfl]
  · intro now frag pb raw r h1 h2 h3 h4
    obtain ⟨rs, hr⟩ := extractHotelData_some h4
    subst hr
    constructor <;> simp [buildRecord, h1, parsePriceBox, h2, parseAmount, h3]
  · intro now frag pb r h1 h2 h3
    obtain ⟨rs, hr⟩ := extractHotelData_some h3
    subst hr
    constructor <;> simp [buildRecord, h1, parsePriceBox, h2, parseAmount]
  · intro now frag r h1 h2
    obtain ⟨rs, hr⟩ := extractHotelData_some h2
    subst hr
    constructor <;> simp [buildRecord, h1, defaultPrice]

/-- Witness for C4: the price text "£1,234" yields amount 1234 and currency
"GBP". -/
theorem C4_price_witness :
    pyStrip "£1,234".data = '£' :: "1,234".data ∧
    ((buildRecord "T".data fragPriceClean none).price.amount =
      some (mkRat (Int.ofNat (digitsVal ("1,234".data.filter Char.isDigit))) 1) ∧
     (buildRecord "T".data fragPriceClean none).price.currency = "GBP".data) :=
  ⟨by decide,
   C4_price_amended.1 "T".data fragPriceClean
     { amountText := some "£1,234".data, providerSrc := none,
       roomTypeText := none, cancellationText := none }
     "£1,234".data '£' "1,234".data
     (buildRecord "T".data fragPriceClean none)
     (by decide) (by decide) (by decide) (by decide) (by decide) (by decide)
     (by decide)⟩

/-- Claim C5: for raw location texts of the form prefix plus space plus city
plus newline plus country — with the prefix drawn from (and the unique match
in) the known prefix list, the prefix not recurring later in the text, no
"Show on Map" marker inside, and city and country non-empty trimmed
newline-free parts — extraction yields the city with trailing commas stripped
as the location and the country verbatim. -/
theorem C5_location_split : ∀ (now : Str) (frag : Fragment)
    (p city country : Str) (r : HotelRecord),
    frag.locationText = some (p ++ ' ' :: (city ++ '\n' :: country)) →
    p ∈ prefixesToRemove →
    (∀ q ∈ prefixesToRemove,
      q.isPrefixOf (p ++ ' ' :: (city ++ '\n' :: country)) = true → q = p) →
    occursIn p (' ' :: (city ++ '\n' :: country)) = false →
    occursIn showOnMap (city ++ '\n' :: country) = false →
    city ≠ [] → country ≠ [] →
    pyIsSpace (city.headD ' ') = false → pyIsSpace (city.getLastD ' ') = false →
    pyIsSpace (country.headD ' ') = false → pyIsSpace (country.getLastD ' ') = false →
    '\n' ∉ city → '\n' ∉ country →
    extractHotelData now frag = some r →
    r.location = rstripComma city ∧ r.country = country := by
  intro now frag p city country r hloc hp hfirst hnocc hsom hc hco hch hcl hcoh hcol
    hcn hcon hex
  obtain ⟨rs, hr⟩ := extractHotelData_some hex
  subst hr
  have hlc := parseLocationCountry_eq hp hfirst hnocc hsom hc hco hch hcl hcoh hcol
    hcn hcon
  constructor <;> simp [buildRecord, hloc, hlc]

/-- Witness for C5 on the raw text "Hotel in Paris,\nFrance": location "Paris"
(the trailing comma stripped) and country "France". -/
theorem C5_location_witness :
    fragRatingOk.locationText =
      some ("Hotel in".data ++ ' ' :: ("Paris,".data ++ '\n' :: "France".data)) ∧
    ((buildRecord "T".data fragRatingOk (some (mkRat 17 2))).location =
      rstripComma "Paris,".data ∧
     (buildRecord "T".data fragRatingOk (some (mkRat 17 2))).country = "France".data) :=
  ⟨by decide,
   C5_location_split "T".data fragRatingOk "Hotel in".data "Paris,".data "France".data
     (buildRecord "T".data fragRatingOk (some (mkRat 17 2)))
     (by decide) (by decide) (by decide) (by decide) (by decide) (by decide)
     (by decide) (by decide) (by decide) (by decide) (by decide) (by decide)
     (by decide) (by decide)⟩
